import Mathlib

/-!
Shallow embedding of `src/mc_discord.py` (the `MCLink` Discord ↔ Minecraft
RCON bridge) and verification of its specified behaviour.

Python strings are Lean `String`s; the nullable RCON socket field
`_rcon_socket` is an `Option`; handlers that may raise are modelled as
functions returning `Except`, where `Except.error` is a raised exception
propagating out of the callee; Python dicts keyed by strings or ints are
association lists in insertion order.
-/

namespace MCDiscord

/-- The `Permission` enum of the source (`Default = 0`, `Moderator = 25`,
`Admin = 50`, `Owner = 900`). -/
inductive Permission where
  | Default
  | Moderator
  | Admin
  | Owner
deriving DecidableEq, Repr

/-- The numeric value backing each enum member. -/
def Permission.value : Permission → Nat
  | .Default => 0
  | .Moderator => 25
  | .Admin => 50
  | .Owner => 900

/-- Source `Permission.__lt__`: compares the numeric values. -/
def permLt (a b : Permission) : Bool := a.value < b.value

/-- Source `Permission.__le__`: compares the numeric values.  Python
evaluates `a >= b` on this enum through the reflected `b.__le__(a)`, so
`a >= b` is `permLe b a`. -/
def permLe (a b : Permission) : Bool := a.value ≤ b.value

/-- Python `max(a, b)`: returns `b` exactly when `a < b` holds. -/
def permMax (a b : Permission) : Permission := if permLt a b then b else a

/-- A Discord role as seen by `get_member_permission_level`: only its
snowflake id matters to the permission logic. -/
structure Role where
  id : Nat
deriving DecidableEq, Repr

/-- A guild member: the list of roles the member holds. -/
structure Member where
  roles : List Role
deriving DecidableEq, Repr

/-- A handler either raises (`Except.error`, carrying the exception text),
returns `None` (`Except.ok none`), or returns a `(success, message)` pair. -/
abbrev HandlerResult := Except String (Option (Bool × String))

/-- The `Command` struct of the source: name, required permission level,
handler function and help text.  The observable behaviour of a handler is a
function of its argument list (the `link` and `user` parameters it also
receives are closed over). -/
structure Command where
  name : String
  permission : Permission
  func : List String → HandlerResult
  help : String

/-- The role-to-permission dict `_role_permissions` (keys are int role ids). -/
abbrev RolePermissionMap := List (Nat × Permission)

/-- The command dict `_commands`, in insertion order. -/
abbrev CommandMap := List (String × Command)

/-- Source `register_admin`: Python `self._bot_admins.append(user_id)`,
which appends the id at the end of the list unconditionally. -/
def register_admin (bot_admins : List Nat) (user_id : Nat) : List Nat :=
  bot_admins ++ [user_id]

/-- Membership of a key in an association list (Python `k in dict`). -/
def dictHasKey {α β : Type} [DecidableEq α] (d : List (α × β)) (k : α) : Bool :=
  d.any (fun kv => kv.fst = k)

/-- Python dict assignment `d[k] = v`: replaces the value in place if the
key exists, otherwise appends the new pair (insertion order preserved). -/
def dictSet {α β : Type} [DecidableEq α] (d : List (α × β)) (k : α) (v : β) :
    List (α × β) :=
  if dictHasKey d k then
    d.map (fun kv => if kv.fst = k then (k, v) else kv)
  else
    d ++ [(k, v)]

/-- Source `register_role`: `self._role_permissions[role_id] = level`. -/
def register_role (rp : RolePermissionMap) (role_id : Nat) (level : Permission) :
    RolePermissionMap :=
  dictSet rp role_id level

/-- Source `register_command`:
`self._commands[name] = Command(name, level, func, help)`. -/
def register_command (cmds : CommandMap) (name : String) (level : Permission)
    (func : List String → HandlerResult) (help : String := "") : CommandMap :=
  dictSet cmds name (Command.mk name level func help)

/-- Python equality between a `discord.Role` object and an int dict key, as
evaluated by `role in self._role_permissions`.  The discord library defines
role equality as `isinstance(other, Role) and other.id == self.id`, so a
`Role` compared against an `int` key is never equal (and the identity
fallback of the interpreter also fails): the test is `False` for every key. -/
def pyEqRoleInt (_role : Role) (_key : Nat) : Bool := false

/-- Line 214 of the source, `role in self._role_permissions`: membership of
the `Role` object among the int keys of the dict. -/
def role_in_role_permissions (role : Role) (rp : RolePermissionMap) : Bool :=
  rp.any (fun kv => pyEqRoleInt role kv.fst)

/-- Value lookup `self._role_permissions[role.id]` (the level mapped to the
role id; `Default` stands in for the missing-key case, which the source only
reaches under the guard `role in self._role_permissions`). -/
def rolePermissionLookup (rp : RolePermissionMap) (roleId : Nat) : Permission :=
  match rp.find? (fun kv => kv.fst = roleId) with
  | some kv => kv.snd
  | none => Permission.Default

/-- Source `get_member_permission_level` (lines 195–217).  The member lookup
`guild.members.index(user)` is abstracted as an `Option Member`: `none` for
the `ValueError` path (user not found in the roster).  For a found member it
folds over the roles of the member, updating the running maximum only when
`role in self._role_permissions` holds. -/
def get_member_permission_level (rp : RolePermissionMap)
    (memberLookup : Option Member) : Permission :=
  match memberLookup with
  | none => Permission.Default
  | some member =>
    member.roles.foldl
      (fun permission_level role =>
        if role_in_role_permissions role rp then
          permMax permission_level (rolePermissionLookup rp role.id)
        else
          permission_level)
      Permission.Default

/-- Specification-side definition: `resolveSpec` follows the words of the
SPEC for `resolve(u)` (§4.3), namely the maximum of `Default` and the mapped
level of each role of the user whose id appears in the RolePermissionMap;
`Default` when the member is unknown.  It is to be compared with the
source-side `get_member_permission_level`. -/
def resolveSpec (rp : RolePermissionMap) (memberLookup : Option Member) :
    Permission :=
  match memberLookup with
  | none => Permission.Default
  | some member =>
    member.roles.foldl
      (fun acc role =>
        match rp.find? (fun kv => kv.fst = role.id) with
        | some kv => permMax acc kv.snd
        | none => acc)
      Permission.Default

/-- Line 226 of the source, `input.split(" ")`: Python splits at every
occurrence of the single space character, keeping empty fields (consecutive
separators yield empty strings, and the result always has at least one
field).  `List.splitOn` has exactly these semantics. -/
def pySplit (s : String) : List String :=
  (s.data.splitOn ' ').map String.mk

/-- Lines 226–228 of `call`: the first field of `input.split(" ")` is the
command name, the remaining fields are the argument list. -/
def parseInput (input : String) : String × List String :=
  let cmd_args := pySplit input
  (cmd_args.headD "", cmd_args.tail)

/-- Specification-side definition for step 1 of `call`: split the raw input
on WHITESPACE and keep the non-empty tokens, as the words of the spec
describe.  To be compared with `parseInput`. -/
def specWhitespaceTokens (s : String) : List String :=
  ((s.data.splitOnP (fun c => c.isWhitespace)).filter (fun f => f ≠ [])).map
    String.mk

/-- Source `call` (lines 219–250), instrumented with a flag recording
whether the command handler was invoked.  An uncaught exception raised by
the handler leaves `call` as `Except.error` — the source has no try/except
around `cmd.func`, only around the dict lookup (`KeyError`). -/
def callT (rp : RolePermissionMap) (memberLookup : Option Member)
    (commands : CommandMap) (input : String) :
    Except String (Bool × String) × Bool :=
  let parsed := parseInput input
  let cmd_name := parsed.fst
  let cmd_args := parsed.snd
  match commands.find? (fun kv => kv.fst = cmd_name) with
  | none =>
    (Except.ok (false, "Error: Unknown command \x27" ++ cmd_name ++ "\x27"),
     false)
  | some kv =>
    let cmd := kv.snd
    if permLt (get_member_permission_level rp memberLookup) cmd.permission then
      (Except.ok (false, "You don\x27t have permission for that command."),
       false)
    else
      match cmd.func cmd_args with
      | Except.error e => (Except.error e, true)
      | Except.ok none => (Except.ok (true, "No response for command"), true)
      | Except.ok (some response) => (Except.ok response, true)

/-- Source `call` as its caller observes it: the result alone, with
`Except.error` for an exception propagating out of `call`. -/
def call (rp : RolePermissionMap) (memberLookup : Option Member)
    (commands : CommandMap) (input : String) : Except String (Bool × String) :=
  (callT rp memberLookup commands input).fst

/-- An RCON socket handle (opaque to the permission/dispatch logic). -/
abbrev RconSocket := Nat

/-- The `_rcon_socket` field: `none` is Python `None` (the `Disconnected`
state of the bridge). -/
abbrev BridgeState := Option RconSocket

/-- Source `is_connected` (lines 158–162):
`self._rcon_socket is not None`. -/
def is_connected (s : BridgeState) : Bool := s.isSome

/-- Source `close` (lines 149–156), returning the new `_rcon_socket` state
together with a flag recording whether `socket.close()` was invoked.  When
already disconnected, the body is skipped entirely. -/
def close (s : BridgeState) : BridgeState × Bool :=
  if is_connected s then (none, true) else (s, false)

/-- Source `execute` (lines 252–261).  The external RCON round trip
`mcrcon.command` is abstracted as the function `rcon` from the socket field
and the command text to the response text.  The returned pair carries the
(unmodified) `_rcon_socket` state, making explicit that `execute` never
mutates it. -/
def execute (s : BridgeState) (rcon : BridgeState → String → String)
    (command : String) : String × BridgeState :=
  if is_connected s = false then
    ("RCON is not connected", s)
  else
    (rcon s command, s)

/-- The greeting that opens every `help` response. -/
def helpHeader : String :=
  "Hello! I am a Discord -> Minecraft: Java Edition server link!\nHere are the commands available to you:\n\n"

/-- The line `help` appends for one accessible command. -/
def helpLine (c : Command) : String :=
  "* `" ++ c.name ++ "` - " ++ c.help ++ "\n"

/-- Source `help` (lines 263–278): folds over `self._commands.values()` in
insertion order, appending a line for each command whose required level the
resolved permission of the user reaches (`user_permission >= x.permission`,
evaluated through the reflected `__le__`). -/
def help (rp : RolePermissionMap) (memberLookup : Option Member)
    (commands : CommandMap) : Bool × String :=
  let user_permission := get_member_permission_level rp memberLookup
  let message := (commands.map Prod.snd).foldl
    (fun msg c =>
      if permLe c.permission user_permission then msg ++ helpLine c else msg)
    helpHeader
  (true, message)

/-- Python `s.startswith(marker)`: the first characters of `s` are exactly
`marker`. -/
def pyStartsWith (s : String) (marker : String) : Bool :=
  s.data.take marker.data.length = marker.data

/-- Python character slicing `s[n:]`: drops the first `n` characters. -/
def pyDrop (s : String) (n : Nat) : String := String.mk (s.data.drop n)

/-- Source `_DiscordLink.on_message` (lines 89–108), restricted to what it
sends back to the channel: `none` when nothing is sent (author is the bot
itself or another bot, or the content does not start with `!`), otherwise
the text sent.  A `(success, message)` result from `call` is sent with the
`"[FAIL] "` marker when `success` is false; an exception escaping `call` is
caught here and converted to the apology message naming the failing input
and the exception text. -/
def onMessageResponse (rp : RolePermissionMap) (memberLookup : Option Member)
    (commands : CommandMap) (authorIsSelf authorIsBot : Bool)
    (content : String) : Option String :=
  if authorIsSelf || authorIsBot then none
  else if pyStartsWith content "!" then
    match call rp memberLookup commands (pyDrop content 1) with
    | Except.ok response =>
      some ((if response.fst = false then "[FAIL] " else "") ++ response.snd)
    | Except.error e =>
      some (":exclamation: An error occurred while trying to run the command \x27"
        ++ pyDrop content 1
        ++ "\x27.\nPlease notify the development team.\n\nException: " ++ e)
  else none

/-! ## Helper lemmas -/

/-- The membership test of line 214 is `False` for every role and every
role-permission dict, because a `Role` object never equals an int key. -/
theorem role_in_role_permissions_eq_false (role : Role) (rp : RolePermissionMap) :
    role_in_role_permissions role rp = false := by
  simp [role_in_role_permissions, pyEqRoleInt]

/-- The role fold of `get_member_permission_level` never leaves its
accumulator, since its guard is always `False`. -/
theorem gmpl_foldl (rp : RolePermissionMap) (roles : List Role) (acc : Permission) :
    roles.foldl
      (fun permission_level role =>
        if role_in_role_permissions role rp then
          permMax permission_level (rolePermissionLookup rp role.id)
        else
          permission_level)
      acc = acc := by
  induction roles generalizing acc with
  | nil => rfl
  | cons r rs ih => simp [role_in_role_permissions_eq_false, ih]

/-- The message fold of `help` appends exactly the lines of the commands
passing the permission filter, in order. -/
theorem help_foldl (p : Permission) (l : List Command) (acc : String) :
    l.foldl (fun msg c => if permLe c.permission p then msg ++ helpLine c else msg) acc
      = acc ++ String.join ((l.filter (fun c => permLe c.permission p)).map helpLine) := by
  induction l generalizing acc with
  | nil => simp [String.join]
  | cons c cs ih =>
    by_cases h : permLe c.permission p
    · rw [List.foldl_cons, if_pos h, ih, List.filter_cons, if_pos (by exact h),
        List.map_cons]
      apply String.ext
      simp [String.data_append]
    · rw [List.foldl_cons, if_neg h, ih, List.filter_cons, if_neg (by exact h)]

/-! ## Claims -/

/-- Claim C1 (code bug).  The claim says the resolved permission level is
the maximum of the levels mapped to the roles of the user together with
`Default`.  In the code, `get_member_permission_level` returns
`Permission.Default` for EVERY user and EVERY role-permission map, because
line 214 tests `role in self._role_permissions` with a `Role` object
against the int keys of the dict and therefore never fires — contradicting
the intent shown by its own comment and by the `role.id` lookup in its
body.  On the concrete input where role 5 is registered as `Admin` and the
member holds role 5, the code yields `Default` while the specified
`resolveSpec` yields `Admin`. -/
theorem c1_role_permission_resolution_bug :
    (∀ (rp : RolePermissionMap) (m : Option Member),
        get_member_permission_level rp m = Permission.Default) ∧
    get_member_permission_level [(5, Permission.Admin)]
        (some (Member.mk [Role.mk 5])) = Permission.Default ∧
    resolveSpec [(5, Permission.Admin)]
        (some (Member.mk [Role.mk 5])) = Permission.Admin := by
  refine ⟨?_, by decide, by decide⟩
  intro rp m
  cases m with
  | none => rfl
  | some member => exact gmpl_foldl rp member.roles Permission.Default

/-- Claim C2, counterexample.  A registered command whose handler raises,
invoked with sufficient permission: `call` does NOT return a
`(false, message)` result — the exception propagates out of `call`
(`Except.error`), because the source has no try/except around the handler
invocation. -/
theorem c2_counterexample :
    call [] none
      [("boom", Command.mk "boom" Permission.Default
        (fun _ => Except.error "boom!") "")] "boom" = Except.error "boom!" ∧
    ¬ ∃ msg : String,
      call [] none
        [("boom", Command.mk "boom" Permission.Default
          (fun _ => Except.error "boom!") "")] "boom" =
        Except.ok (false, msg) := by
  refine ⟨rfl, ?_⟩
  intro hex
  obtain ⟨msg, hm⟩ := hex
  have h : call [] none
      [("boom", Command.mk "boom" Permission.Default
        (fun _ => Except.error "boom!") "")] "boom" = Except.error "boom!" := rfl
  rw [h] at hm
  exact Except.noConfusion hm

/-- Claim C2, amended.  A handler fault propagates out of `call`; it is the
chat adapter (`on_message`) that catches it at its own boundary and turns
it into a diagnostic message — naming the failing input and the exception
text — sent back to the channel instead of crashing the session. -/
theorem c2_fault_caught_at_adapter (rp : RolePermissionMap)
    (m : Option Member) (cmds : CommandMap) (content e : String)
    (hBang : pyStartsWith content "!" = true)
    (hErr : call rp m cmds (pyDrop content 1) = Except.error e) :
    onMessageResponse rp m cmds false false content =
      some (":exclamation: An error occurred while trying to run the command \x27"
        ++ pyDrop content 1
        ++ "\x27.\nPlease notify the development team.\n\nException: " ++ e) := by
  simp [onMessageResponse, hBang, hErr]

/-- Witness for C2 amended: the raising handler `boom`, invoked through a
`!boom` chat message, yields the apology message, not a crash. -/
theorem c2_fault_caught_at_adapter_witness :
    onMessageResponse [] none
      [("boom", Command.mk "boom" Permission.Default
        (fun _ => Except.error "boom!") "")] false false "!boom" =
      some (":exclamation: An error occurred while trying to run the command \x27"
        ++ pyDrop "!boom" 1
        ++ "\x27.\nPlease notify the development team.\n\nException: " ++ "boom!") :=
  c2_fault_caught_at_adapter [] none
    [("boom", Command.mk "boom" Permission.Default
      (fun _ => Except.error "boom!") "")] "!boom" "boom!" rfl rfl

/-- Claim C3, counterexample.  The negative result for an unknown command
carries the text `Error: Unknown command '<name>'` — with an `Error: `
marker the claim omits — so the claimed pair is not the returned one. -/
theorem c3_counterexample :
    call [] none [] "frobnicate" =
      Except.ok (false, "Error: Unknown command \x27frobnicate\x27") ∧
    call [] none [] "frobnicate" ≠
      Except.ok (false, "Unknown command \x27frobnicate\x27") := by
  refine ⟨rfl, ?_⟩
  intro h
  have h2 : call [] none [] "frobnicate" =
      Except.ok (false, "Error: Unknown command \x27frobnicate\x27") := rfl
  rw [h2] at h
  have hs := congrArg Prod.snd (Except.ok.inj h)
  exact absurd hs (by decide)

/-- Claim C3, amended.  For every input whose first space-separated field is
not a registered command name (including the empty name from empty input),
`call` returns the normal negative pair
`(False, "Error: Unknown command '<name>'")` with the unresolved name
interpolated, and does not raise. -/
theorem c3_unknown_command_message (rp : RolePermissionMap)
    (m : Option Member) (cmds : CommandMap) (input : String)
    (h : cmds.find? (fun kv => kv.fst = (parseInput input).fst) = none) :
    call rp m cmds input =
      Except.ok (false,
        "Error: Unknown command \x27" ++ (parseInput input).fst ++ "\x27") := by
  simp [call, callT, h]

/-- Witness for C3 amended: `frobnicate` against an empty registry. -/
theorem c3_unknown_command_message_witness :
    call [] none [] "frobnicate" =
      Except.ok (false,
        "Error: Unknown command \x27" ++ (parseInput "frobnicate").fst ++ "\x27") :=
  c3_unknown_command_message [] none [] "frobnicate" rfl

/-- Claim C4 (confirmed).  When the resolved permission level of the user
is strictly below the required level of the looked-up command, `call`
returns `(False, "You don't have permission for that command.")` and the
handler is never invoked (the invocation flag of `callT` stays `false`). -/
theorem c4_permission_gate (rp : RolePermissionMap) (m : Option Member)
    (cmds : CommandMap) (input : String) (k : String) (cmd : Command)
    (hfind : cmds.find? (fun kv => kv.fst = (parseInput input).fst) =
      some (k, cmd))
    (hlt : permLt (get_member_permission_level rp m) cmd.permission = true) :
    callT rp m cmds input =
      (Except.ok (false, "You don\x27t have permission for that command."),
       false) := by
  simp [callT, hfind, hlt]

/-- Witness for C4: an `Admin`-gated `stop` command invoked by a user who
resolves to `Default`. -/
theorem c4_permission_gate_witness :
    callT [] none
      [("stop", Command.mk "stop" Permission.Admin (fun _ => Except.ok none) "")]
      "stop" =
      (Except.ok (false, "You don\x27t have permission for that command."),
       false) :=
  c4_permission_gate [] none
    [("stop", Command.mk "stop" Permission.Admin (fun _ => Except.ok none) "")]
    "stop" "stop"
    (Command.mk "stop" Permission.Admin (fun _ => Except.ok none) "")
    rfl rfl

/-- Claim C5 (confirmed).  For every command string, `execute` on a bridge
whose `is_connected` is `False` returns the sentinel text
`"RCON is not connected"` without raising and leaves the `_rcon_socket`
state unchanged. -/
theorem c5_execute_disconnected (s : BridgeState)
    (rcon : BridgeState → String → String) (command : String)
    (h : is_connected s = false) :
    execute s rcon command = ("RCON is not connected", s) := by
  simp [execute, h]

/-- Witness for C5: `execute "list"` on the disconnected bridge. -/
theorem c5_execute_disconnected_witness :
    execute none (fun _ _ => "") "list" = ("RCON is not connected", none) :=
  c5_execute_disconnected none (fun _ _ => "") "list" rfl

/-- Claim C6 (confirmed).  The `help` message is the greeting followed by
exactly the lines of the registered commands whose required level is less
than or equal to the resolved permission level of the user, in registry
order; a command line is included precisely when the permission test
passes. -/
theorem c6_help_lists_exactly (rp : RolePermissionMap) (m : Option Member)
    (cmds : CommandMap) :
    help rp m cmds =
      (true, helpHeader ++ String.join
        (((cmds.map Prod.snd).filter
          (fun c => permLe c.permission (get_member_permission_level rp m))).map
            helpLine)) ∧
    ∀ c : Command,
      c ∈ (cmds.map Prod.snd).filter
          (fun c => permLe c.permission (get_member_permission_level rp m)) ↔
        c ∈ cmds.map Prod.snd ∧
          permLe c.permission (get_member_permission_level rp m) = true := by
  constructor
  · simp [help, help_foldl]
  · intro c
    simp [List.mem_filter]

/-- Claim C7, counterexample.  The code splits on the single space
character, not on whitespace: a tab does not separate the command name, and
consecutive spaces produce an empty argument the whitespace-token reading
does not predict. -/
theorem c7_counterexample :
    parseInput "a\tb" ≠
      ((specWhitespaceTokens "a\tb").headD "",
       (specWhitespaceTokens "a\tb").tail) ∧
    parseInput "a  b" ≠
      ((specWhitespaceTokens "a  b").headD "",
       (specWhitespaceTokens "a  b").tail) := by
  decide

/-- Claim C7, amended.  `call` splits its raw input at every occurrence of
the single space character: the first field is the command name and the
remaining fields, in order — including empty fields arising between
consecutive spaces — form the argument list; other whitespace does not
separate.  Stated as the round trip: parsing the space-joined
`name :: args` recovers exactly `(name, args)` whenever no field contains a
space. -/
theorem c7_space_split (name : List Char) (args : List (List Char))
    (hname : ' ' ∉ name) (hargs : ∀ a ∈ args, ' ' ∉ a) :
    parseInput (String.mk ([' '].intercalate (name :: args))) =
      (String.mk name, args.map String.mk) := by
  have hx : ∀ l ∈ name :: args, ' ' ∉ l := by
    intro l hl
    rcases List.mem_cons.mp hl with h | h
    · exact h ▸ hname
    · exact hargs l h
  have h := List.splitOn_intercalate (name :: args) ' ' hx (by simp)
  simp [parseInput, pySplit, h]

/-- Witness for C7 amended: `"a b "` parses to name `a` and arguments
`["b", ""]` — the trailing space yields an empty final argument. -/
theorem c7_space_split_witness :
    parseInput (String.mk ([' '].intercalate (['a'] :: [['b'], []]))) =
      (String.mk ['a'], [['b'], []].map String.mk) :=
  c7_space_split ['a'] [['b'], []] (by decide) (by decide)

/-- Claim C8, counterexample.  `register_admin` appends to a list, so
registering the same user id twice does not leave the AdminList in the
state one registration produces: the id appears twice. -/
theorem c8_counterexample :
    register_admin (register_admin [] 5) 5 ≠ register_admin [] 5 ∧
    register_admin (register_admin [] 5) 5 = [5, 5] := by
  decide

/-- Claim C8, amended.  `register_admin` is a plain append: a second
registration of the same id adds a duplicate entry, so the operation is not
idempotent on the list state; only the MEMBERSHIP of the AdminList is
unchanged by the duplicate registration. -/
theorem c8_register_admin_append (l : List Nat) (u : Nat) :
    register_admin (register_admin l u) u = l ++ [u, u] ∧
    (∀ x : Nat,
      x ∈ register_admin (register_admin l u) u ↔ x ∈ register_admin l u) := by
  constructor
  · simp [register_admin]
  · intro x
    simp [register_admin]

/-- Claim C9 (confirmed).  For an authorized invocation, a handler
returning `None` is normalized by `call` to
`(True, "No response for command")`, and a handler returning a
`(success, message)` pair has that pair passed through verbatim. -/
theorem c9_response_normalization (rp : RolePermissionMap)
    (m : Option Member) (cmds : CommandMap) (input : String) (k : String)
    (cmd : Command)
    (hfind : cmds.find? (fun kv => kv.fst = (parseInput input).fst) =
      some (k, cmd))
    (hperm : permLt (get_member_permission_level rp m) cmd.permission = false) :
    (cmd.func (parseInput input).snd = Except.ok none →
      call rp m cmds input = Except.ok (true, "No response for command")) ∧
    (∀ r : Bool × String, cmd.func (parseInput input).snd = Except.ok (some r) →
      call rp m cmds input = Except.ok r) := by
  constructor
  · intro h
    simp [call, callT, hfind, hperm, h]
  · intro r h
    simp [call, callT, hfind, hperm, h]

/-- Witness for C9: a `ping` handler returning `None` is normalized to the
positive default response. -/
theorem c9_response_normalization_witness :
    call [] none
      [("ping", Command.mk "ping" Permission.Default (fun _ => Except.ok none) "")]
      "ping" = Except.ok (true, "No response for command") :=
  (c9_response_normalization [] none
    [("ping", Command.mk "ping" Permission.Default (fun _ => Except.ok none) "")]
    "ping" "ping"
    (Command.mk "ping" Permission.Default (fun _ => Except.ok none) "")
    rfl rfl).1 rfl

/-- Claim C10 (confirmed).  `close` is idempotent and safe in every bridge
state: after any `close` the bridge reports disconnected; `close` on an
already disconnected bridge is a no-op that changes nothing and never
touches the socket; and a second `close` after any `close` changes nothing
further. -/
theorem c10_close_idempotent_safe :
    (∀ s : BridgeState, is_connected (close s).fst = false) ∧
    close none = (none, false) ∧
    (∀ s : BridgeState, close (close s).fst = ((close s).fst, false)) := by
  refine ⟨?_, rfl, ?_⟩ <;> intro s <;> cases s <;> simp [close, is_connected]

end MCDiscord
